import Mathlib

/-!
Shallow embedding of the VR-Hass-Power repository (Syfaro/VR-Hass-Power):
the process watcher and the power decision loop from src/main.rs, the
configuration model from src/config.rs, and the device-command boundary
from src/hass.rs, together with theorems settling the claims about them.
-/

namespace VRHass

/-- The current state of the VR process (src/main.rs, enum VRState). When
running, it includes the pid. -/
inductive VRState
  | NotRunning
  | Running (pid : Nat)
  deriving DecidableEq, Repr

/-- One event on the mpsc channel: the pair sent by the watcher
(src/main.rs, the channel carries (VRState, bool) where the bool is the
is-initial flag), extended with the send time in seconds so that the
decision loop's recv_timeout race can be modelled. -/
structure Event where
  state : VRState
  isInitial : Bool
  time : Nat
  deriving DecidableEq, Repr

/-- A device-facing command issued through hass::set_entity_state:
APIState::On maps to TurnOn, APIState::Off maps to TurnOff. -/
inductive Action
  | TurnOn
  | TurnOff
  deriving DecidableEq, Repr

/-- How a finite run of the decision loop ends once the event list is
exhausted: blocked forever inside updates.recv() when the channel stays
open, or panicked on the Err returned by recv() after the watcher thread
has died and the channel is disconnected (the .unwrap() in src/main.rs
line 133), or panicked on the .expect() after a failed device command. -/
inductive Exit
  | blocked
  | panicked
  deriving DecidableEq, Repr

/-- Device controller oracle under which every command succeeds. -/
def allOk : Nat → Bool := fun _ => true

/-- The outcome of one debounce wait (the updates.recv_timeout match in
src/main.rs lines 158-165), as a function of the deadline start, the
delay and the next queued event if any: Err (timeout or disconnection)
when no event is delivered before the deadline, otherwise the Ok value
classified by its state. -/
inductive DebounceOutcome
  | timedOut
  | gotAbsent
  | gotPresent
  deriving DecidableEq, Repr

/-- Classify a debounce wait that starts at time t with the given delay.
next is the next event of the stream, none when the stream holds no
further event. An event is delivered by recv_timeout exactly when it is
sent strictly before the deadline t + delay; otherwise the wait ends in
Err (either Timeout, or Disconnected when the channel has closed). -/
def debounceOutcome (delay t : Nat) (next : Option Event) : DebounceOutcome :=
  match next with
  | none => DebounceOutcome.timedOut
  | some e =>
      if e.time < t + delay then
        match e.state with
        | VRState.NotRunning => DebounceOutcome.gotAbsent
        | VRState.Running _ => DebounceOutcome.gotPresent
      else
        DebounceOutcome.timedOut

/-- The device commands attempted by one debounce wait: the match in
src/main.rs issues exactly one TurnOff on Ok((NotRunning, _)) and on
Err(_), and nothing on Ok((Running(_), _)). -/
def debounceActions (delay t : Nat) (next : Option Event) : List Action :=
  match debounceOutcome delay t next with
  | DebounceOutcome.gotPresent => []
  | _ => [Action.TurnOff]

/-- The power decision loop of src/main.rs lines 129-168, run over a
finite prefix of the event stream. Arguments: the configured off delay
(config.power.delay), whether the channel disconnects once the listed
events are exhausted (closes), the device controller oracle giving the
success of the n-th set_entity_state call (devOk), the current time, the
index of the next device command, and the queued events in send order.
Returns the list of commands attempted (a failed attempt is included as
its command) and how the run ends. Each loop iteration receives the head
event; a Running state issues TurnOn, a NotRunning initial event issues
TurnOff, and a NotRunning non-initial event enters the debounce wait,
racing the next event against the deadline: an event sent before the
deadline is consumed (TurnOff if it is NotRunning, nothing if Running),
otherwise one TurnOff fires on Err and the late event stays queued. -/
def run (delay : Nat) (closes : Bool) (devOk : Nat → Bool) :
    Nat → Nat → List Event → List Action × Exit
  | _, _, [] => ([], if closes then Exit.panicked else Exit.blocked)
  | now, n, ⟨VRState.Running _, _, tm⟩ :: rest =>
      let t := max now tm
      if devOk n then
        let r := run delay closes devOk t (n + 1) rest
        (Action.TurnOn :: r.1, r.2)
      else
        ([Action.TurnOn], Exit.panicked)
  | now, n, ⟨VRState.NotRunning, true, tm⟩ :: rest =>
      let t := max now tm
      if devOk n then
        let r := run delay closes devOk t (n + 1) rest
        (Action.TurnOff :: r.1, r.2)
      else
        ([Action.TurnOff], Exit.panicked)
  | now, n, ⟨VRState.NotRunning, false, tm⟩ :: rest =>
      let t := max now tm
      match rest with
      | [] =>
          if devOk n then
            let r := run delay closes devOk (t + delay) (n + 1) []
            (Action.TurnOff :: r.1, r.2)
          else
            ([Action.TurnOff], Exit.panicked)
      | e2 :: rest2 =>
          if e2.time < t + delay then
            match e2.state with
            | VRState.NotRunning =>
                if devOk n then
                  let r := run delay closes devOk (max t e2.time) (n + 1) rest2
                  (Action.TurnOff :: r.1, r.2)
                else
                  ([Action.TurnOff], Exit.panicked)
            | VRState.Running _ =>
                run delay closes devOk (max t e2.time) n rest2
          else
            if devOk n then
              let r := run delay closes devOk (t + delay) (n + 1) (e2 :: rest2)
              (Action.TurnOff :: r.1, r.2)
            else
              ([Action.TurnOff], Exit.panicked)

/-- One process of the OS process table, as exposed by the sysinfo
facility used in src/main.rs: a name and a pid. -/
structure Proc where
  name : String
  pid : Nat
  deriving DecidableEq, Repr

/-- system.get_process_by_name(name).first(): the first process of the
table whose name equals the query. -/
def get_process_by_name (s : List Proc) (nm : String) : Option Proc :=
  (s.filter fun p => p.name = nm).head?

/-- system.get_process(pid): the process with the given pid, if any. -/
def get_process (s : List Proc) (pid : Nat) : Option Proc :=
  s.find? fun p => p.pid = pid

/-- get_initial_state of src/main.rs lines 27-35: refresh the process
table (here: take the snapshot s) and look the process up by name. -/
def get_initial_state (nm : String) (s : List Proc) : VRState :=
  match get_process_by_name s nm with
  | some p => VRState.Running p.pid
  | none => VRState.NotRunning

/-- One poll-cycle state update of the watcher loop, src/main.rs lines
63-76: when the previous state is NotRunning, search the snapshot by
name; when it is Running pid, only check whether that pid still exists. -/
def step_state (nm : String) (s : List Proc) : VRState → VRState
  | VRState.NotRunning =>
      match get_process_by_name s nm with
      | some p => VRState.Running p.pid
      | none => VRState.NotRunning
  | VRState.Running pid =>
      if (get_process s pid).isSome then VRState.Running pid
      else VRState.NotRunning

/-- The events sent by the watcher loop of src/main.rs lines 54-89 over a
finite list of successive process-table snapshots (one snapshot per
refresh_processes call), starting from the given previous state: an
event (newState, false) is sent exactly when the state changed. -/
def watcherLoop (nm : String) : VRState → List (List Proc) → List (VRState × Bool)
  | _, [] => []
  | st, s :: ss =>
      let st2 := step_state nm s st
      if st2 = st then watcherLoop nm st2 ss
      else (st2, false) :: watcherLoop nm st2 ss

/-- All events sent by poll_vr_state_updates (src/main.rs lines 40-93):
the unconditional initial event (state, true) computed from the first
snapshot, followed by the change events of the loop. -/
def watcherEvents (nm : String) (s0 : List Proc) (ss : List (List Proc)) :
    List (VRState × Bool) :=
  (get_initial_state nm s0, true) :: watcherLoop nm (get_initial_state nm s0) ss

/-- An observable operation of the watcher thread, in program order: a
process-table refresh, a channel send, or a sleep of the configured
interval. -/
inductive WOp
  | refresh
  | send (ev : VRState × Bool)
  | sleep (secs : Nat)
  deriving DecidableEq, Repr

/-- The operation trace of the watcher loop body (src/main.rs lines
54-89) over successive snapshots: each iteration refreshes, then sends
when the state changed, then sleeps config.interval seconds. -/
def watcherLoopTrace (nm : String) (interval : Nat) :
    VRState → List (List Proc) → List WOp
  | _, [] => []
  | st, s :: ss =>
      let st2 := step_state nm s st
      WOp.refresh ::
        ((if st2 = st then [] else [WOp.send (st2, false)]) ++
          WOp.sleep interval :: watcherLoopTrace nm interval st2 ss)

/-- The full operation trace of the watcher thread: the initial refresh
and unconditional initial send, followed by the loop trace. -/
def watcherTrace (nm : String) (interval : Nat) (s0 : List Proc)
    (ss : List (List Proc)) : List WOp :=
  WOp.refresh :: WOp.send (get_initial_state nm s0, true) ::
    watcherLoopTrace nm interval (get_initial_state nm s0) ss

/-- The sequence of states computed by the watcher loop, one per
snapshot (the value of the state variable after each iteration). -/
def stateList (nm : String) : VRState → List (List Proc) → List VRState
  | _, [] => []
  | st, s :: ss =>
      let st2 := step_state nm s st
      st2 :: stateList nm st2 ss

/-- Spec-side characterization for the coalescing claim: the sub-sequence
of a state sequence at which the state differs from its predecessor (one
entry per state transition, in order). -/
def changeList : VRState → List VRState → List VRState
  | _, [] => []
  | prev, s :: ss =>
      if s = prev then changeList prev ss
      else s :: changeList s ss

/-- Home Assistant configuration (src/config.rs lines 20-30). -/
structure HomeAssistantConfig where
  url : String
  api_key : String
  service : String
  entity : String
  deriving DecidableEq, Repr

/-- Process checking configuration (src/config.rs lines 33-39): the
interval field is an unsigned integer with no further constraint. -/
structure CheckConfig where
  process_name : String
  interval : Nat
  deriving DecidableEq, Repr

/-- Power control configuration (src/config.rs lines 42-46). -/
structure PowerConfig where
  delay : Nat
  deriving DecidableEq, Repr

/-- Application configuration (src/config.rs lines 12-17). -/
structure Config where
  power : PowerConfig
  check : CheckConfig
  homeassistant : HomeAssistantConfig
  deriving DecidableEq, Repr

/-- load_config of src/config.rs lines 49-58: read and toml-parse the
configuration file. The file system and toml layers are modelled by the
already-parsed result (none for any read or parse failure); the point
preserved from the source is that a successfully parsed Config is
returned unchanged, with no range validation of any field. -/
def load_config (parsed : Option Config) : Option Config :=
  parsed

/-- prompt_config of src/config.rs lines 76-126, for one successful
iteration of its prompt loop (the loop repeats only on credential or
entity errors and never changes the power and check sections): the
power delay is fixed at 60, the check section is fixed at process name
vrserver.exe with interval 3, and the prompted strings are trimmed. -/
def prompt_config (url api_key entity : String) : Config :=
  { power := { delay := 60 }
    check := { process_name := "vrserver.exe", interval := 3 }
    homeassistant :=
      { url := url.trim
        api_key := api_key.trim
        service := "switch"
        entity := entity.trim } }

/-- The configuration main (src/main.rs lines 111-121) passes to the
watcher and the decision loop: the loaded configuration when the file
loads, otherwise the one produced by the setup prompt. -/
def configForMain (file : Option Config) (url api_key entity : String) : Config :=
  match load_config file with
  | some c => c
  | none => prompt_config url api_key entity

/-- A well-typed parsed configuration file whose check interval is 0:
toml parsing accepts it since the field is only required to be an
unsigned integer. -/
def zeroIntervalConfig : Config :=
  { power := { delay := 60 }
    check := { process_name := "vrserver.exe", interval := 0 }
    homeassistant :=
      { url := "http://hass.local:8123"
        api_key := "key"
        service := "switch"
        entity := "switch.vr" } }

/-- Unfolding: the loop on an exhausted event stream blocks in recv when
the channel stays open and panics on the recv unwrap when it is closed. -/
theorem run_nil (delay : Nat) (closes : Bool) (devOk : Nat → Bool) (now n : Nat) :
    run delay closes devOk now n [] = ([], if closes then Exit.panicked else Exit.blocked) := rfl

/-- Unfolding: a received Running state issues TurnOn, regardless of the
is-initial flag. -/
theorem run_running (delay : Nat) (closes : Bool) (devOk : Nat → Bool) (now n pid : Nat)
    (b : Bool) (tm : Nat) (rest : List Event) :
    run delay closes devOk now n (⟨VRState.Running pid, b, tm⟩ :: rest) =
      if devOk n then
        (Action.TurnOn :: (run delay closes devOk (max now tm) (n + 1) rest).1,
          (run delay closes devOk (max now tm) (n + 1) rest).2)
      else ([Action.TurnOn], Exit.panicked) := rfl

/-- Unfolding: a received initial NotRunning state issues TurnOff at
once, with no wait and no event consumed. -/
theorem run_absent_initial (delay : Nat) (closes : Bool) (devOk : Nat → Bool) (now n tm : Nat)
    (rest : List Event) :
    run delay closes devOk now n (⟨VRState.NotRunning, true, tm⟩ :: rest) =
      if devOk n then
        (Action.TurnOff :: (run delay closes devOk (max now tm) (n + 1) rest).1,
          (run delay closes devOk (max now tm) (n + 1) rest).2)
      else ([Action.TurnOff], Exit.panicked) := rfl

/-- Unfolding: a debounce wait with no further event ends in Err (by
timeout when the channel stays open, by disconnection when it closed)
and issues exactly one TurnOff either way. -/
theorem run_debounce_empty (delay : Nat) (closes : Bool) (devOk : Nat → Bool) (now n tm : Nat) :
    run delay closes devOk now n [⟨VRState.NotRunning, false, tm⟩] =
      if devOk n then ([Action.TurnOff], if closes then Exit.panicked else Exit.blocked)
      else ([Action.TurnOff], Exit.panicked) := rfl

/-- Unfolding: a Running event delivered before the debounce deadline is
consumed by the wait and issues no command at all. -/
theorem run_debounce_present (delay : Nat) (closes : Bool) (devOk : Nat → Bool)
    (now n tm pid : Nat) (b : Bool) (e2t : Nat) (rest2 : List Event)
    (h : e2t < max now tm + delay) :
    run delay closes devOk now n
        (⟨VRState.NotRunning, false, tm⟩ :: ⟨VRState.Running pid, b, e2t⟩ :: rest2) =
      run delay closes devOk (max (max now tm) e2t) n rest2 := by
  simp only [run]
  rw [if_pos h]

/-- Unfolding: a NotRunning event delivered before the debounce deadline
is consumed by the wait and issues exactly one TurnOff. -/
theorem run_debounce_absent (delay : Nat) (closes : Bool) (devOk : Nat → Bool)
    (now n tm : Nat) (b : Bool) (e2t : Nat) (rest2 : List Event)
    (h : e2t < max now tm + delay) :
    run delay closes devOk now n
        (⟨VRState.NotRunning, false, tm⟩ :: ⟨VRState.NotRunning, b, e2t⟩ :: rest2) =
      if devOk n then
        (Action.TurnOff :: (run delay closes devOk (max (max now tm) e2t) (n + 1) rest2).1,
          (run delay closes devOk (max (max now tm) e2t) (n + 1) rest2).2)
      else ([Action.TurnOff], Exit.panicked) := by
  simp only [run]
  rw [if_pos h]

/-- Unfolding: when the next event is only sent at or after the debounce
deadline, the wait times out, issues exactly one TurnOff, and leaves the
event queued for the next blocking recv. -/
theorem run_debounce_late (delay : Nat) (closes : Bool) (devOk : Nat → Bool)
    (now n tm : Nat) (e2 : Event) (rest2 : List Event)
    (h : ¬ e2.time < max now tm + delay) :
    run delay closes devOk now n (⟨VRState.NotRunning, false, tm⟩ :: e2 :: rest2) =
      if devOk n then
        (Action.TurnOff ::
            (run delay closes devOk (max now tm + delay) (n + 1) (e2 :: rest2)).1,
          (run delay closes devOk (max now tm + delay) (n + 1) (e2 :: rest2)).2)
      else ([Action.TurnOff], Exit.panicked) := by
  simp only [run]
  rw [if_neg h]

/-- The watcher loop never sends an event whose is-initial flag is true. -/
theorem watcherLoop_countP_isInitial (nm : String) :
    ∀ (ss : List (List Proc)) (st : VRState),
      (watcherLoop nm st ss).countP (fun ev => ev.2) = 0
  | [], _ => by simp [watcherLoop]
  | s :: ss, st => by
      by_cases h : step_state nm s st = st
      · simp [watcherLoop, h, watcherLoop_countP_isInitial nm ss]
      · simp [watcherLoop, h, watcherLoop_countP_isInitial nm ss, List.countP_cons]

/-- The watcher loop sends exactly the states at which the computed
state sequence differs from its predecessor, in order, each tagged
non-initial. -/
theorem watcherLoop_eq_changeList (nm : String) :
    ∀ (ss : List (List Proc)) (st : VRState),
      watcherLoop nm st ss =
        (changeList st (stateList nm st ss)).map (fun v => (v, false))
  | [], _ => by simp [watcherLoop, stateList, changeList]
  | s :: ss, st => by
      by_cases h : step_state nm s st = st
      · simp [watcherLoop, stateList, changeList, h, watcherLoop_eq_changeList nm ss]
      · simp [watcherLoop, stateList, changeList, h, watcherLoop_eq_changeList nm ss]

/-- Whether the channel closes after the last listed event changes only
how the finite run ends, never which commands are attempted: the Err of
a disconnected recv_timeout takes the same TurnOff arm as a timeout. -/
theorem run_fst_closes :
    ∀ (evs : List Event) (delay : Nat) (devOk : Nat → Bool) (now n : Nat),
      (run delay true devOk now n evs).1 = (run delay false devOk now n evs).1
  | [], _, _, _, _ => by simp [run_nil]
  | ⟨VRState.Running pid, b, tm⟩ :: rest, delay, devOk, now, n => by
      by_cases h : devOk n = true
      · simp [run_running, h, run_fst_closes rest delay devOk (max now tm) (n + 1)]
      · simp [run_running, h]
  | ⟨VRState.NotRunning, true, tm⟩ :: rest, delay, devOk, now, n => by
      by_cases h : devOk n = true
      · simp [run_absent_initial, h, run_fst_closes rest delay devOk (max now tm) (n + 1)]
      · simp [run_absent_initial, h]
  | ⟨VRState.NotRunning, false, tm⟩ :: [], delay, devOk, now, n => by
      by_cases h : devOk n = true <;> simp [run_debounce_empty, h]
  | ⟨VRState.NotRunning, false, tm⟩ :: ⟨VRState.Running pid, b, e2t⟩ :: rest2,
      delay, devOk, now, n => by
      by_cases h : e2t < max now tm + delay
      · rw [run_debounce_present delay true devOk now n tm pid b e2t rest2 h,
          run_debounce_present delay false devOk now n tm pid b e2t rest2 h]
        exact run_fst_closes rest2 delay devOk (max (max now tm) e2t) n
      · have h2 : ¬ (⟨VRState.Running pid, b, e2t⟩ : Event).time < max now tm + delay := h
        rw [run_debounce_late delay true devOk now n tm _ rest2 h2,
          run_debounce_late delay false devOk now n tm _ rest2 h2]
        by_cases hd : devOk n = true
        · simp [hd,
            run_fst_closes (⟨VRState.Running pid, b, e2t⟩ :: rest2) delay devOk
              (max now tm + delay) (n + 1)]
        · simp [hd]
  | ⟨VRState.NotRunning, false, tm⟩ :: ⟨VRState.NotRunning, b, e2t⟩ :: rest2,
      delay, devOk, now, n => by
      by_cases h : e2t < max now tm + delay
      · rw [run_debounce_absent delay true devOk now n tm b e2t rest2 h,
          run_debounce_absent delay false devOk now n tm b e2t rest2 h]
        by_cases hd : devOk n = true
        · simp [hd, run_fst_closes rest2 delay devOk (max (max now tm) e2t) (n + 1)]
        · simp [hd]
      · have h2 : ¬ (⟨VRState.NotRunning, b, e2t⟩ : Event).time < max now tm + delay := h
        rw [run_debounce_late delay true devOk now n tm _ rest2 h2,
          run_debounce_late delay false devOk now n tm _ rest2 h2]
        by_cases hd : devOk n = true
        · simp [hd,
            run_fst_closes (⟨VRState.NotRunning, b, e2t⟩ :: rest2) delay devOk
              (max now tm + delay) (n + 1)]
        · simp [hd]

/-- Claim C1, counterexample. The claim reads: over the window starting
at a non-initial Absent event whose debounce wait consumes a Present
event sent within the delay, exactly one TurnOn call is issued. On the
code, the consumed Present event takes the arm of the recv_timeout match
that only logs, so the window issues no command at all: with delay 5 and
the Present event sent 2 seconds after the Absent one, the window's
TurnOn count is 0, not 1. -/
theorem debounce_consumed_present_turnon_count :
    (run 5 false allOk 0 0
        [⟨VRState.NotRunning, false, 0⟩, ⟨VRState.Running 42, false, 2⟩]).1.count
        Action.TurnOn = 0 ∧
    ¬ (run 5 false allOk 0 0
        [⟨VRState.NotRunning, false, 0⟩, ⟨VRState.Running 42, false, 2⟩]).1.count
        Action.TurnOn = 1 := by
  decide

/-- Claim C1, amended: a Present event consumed by an active debounce
wait yields no device command at all — the run simply continues after it,
so zero TurnOn and zero TurnOff calls are issued over the window starting
at the Absent event. TurnOn-on-presence holds for the whole sequence only
through the TurnOn issued for the Present event preceding the window:
over the scenario Present(initial), Absent, Present-within-delay the
complete run contains exactly one TurnOn, the one of the first event, so
skipping the turn-off leaves the device on. -/
theorem debounce_consumed_present_no_command :
    (∀ (delay : Nat) (closes : Bool) (devOk : Nat → Bool) (now n tm pid : Nat)
        (b : Bool) (e2t : Nat) (rest : List Event),
      e2t < max now tm + delay →
        run delay closes devOk now n
            (⟨VRState.NotRunning, false, tm⟩ :: ⟨VRState.Running pid, b, e2t⟩ :: rest) =
          run delay closes devOk (max (max now tm) e2t) n rest) ∧
    (run 5 false allOk 0 0
        [⟨VRState.Running 42, true, 0⟩, ⟨VRState.NotRunning, false, 10⟩,
          ⟨VRState.Running 42, false, 12⟩]).1.count Action.TurnOn = 1 := by
  refine ⟨?_, by decide⟩
  intro delay closes devOk now n tm pid b e2t rest h
  exact run_debounce_present delay closes devOk now n tm pid b e2t rest h

/-- Claim C1, witness for the amended theorem at a concrete input. -/
theorem debounce_consumed_present_no_command_witness :
    run 5 false allOk 0 0
        [⟨VRState.NotRunning, false, 0⟩, ⟨VRState.Running 7, false, 2⟩] =
      run 5 false allOk (max (max 0 0) 2) 0 [] :=
  debounce_consumed_present_no_command.1 5 false allOk 0 0 0 7 false 2 [] (by decide)

/-- Claim C2: every debounce wait entered on a non-initial Absent event
resolves through exactly one arm of the race between the next event and
the deadline. When no further event exists, or the next event is only
sent at or past the deadline, or the next event is sent before the
deadline and is Absent, exactly one TurnOff is attempted for the wait;
when the next event is sent before the deadline and is Present, none is.
In every case the wait contributes at most one TurnOff, never two. -/
theorem debounce_wait_exactly_one_branch :
    (∀ (delay : Nat) (closes : Bool) (now n tm : Nat),
      (run delay closes allOk now n [⟨VRState.NotRunning, false, tm⟩]).1 =
        [Action.TurnOff]) ∧
    (∀ (delay : Nat) (closes : Bool) (now n tm : Nat) (b : Bool) (e2t : Nat)
        (rest2 : List Event),
      e2t < max now tm + delay →
        (run delay closes allOk now n
            (⟨VRState.NotRunning, false, tm⟩ :: ⟨VRState.NotRunning, b, e2t⟩ :: rest2)).1 =
          Action.TurnOff ::
            (run delay closes allOk (max (max now tm) e2t) (n + 1) rest2).1) ∧
    (∀ (delay : Nat) (closes : Bool) (now n tm : Nat) (e2 : Event) (rest2 : List Event),
      ¬ e2.time < max now tm + delay →
        (run delay closes allOk now n (⟨VRState.NotRunning, false, tm⟩ :: e2 :: rest2)).1 =
          Action.TurnOff ::
            (run delay closes allOk (max now tm + delay) (n + 1) (e2 :: rest2)).1) ∧
    (∀ (delay : Nat) (closes : Bool) (now n tm pid : Nat) (b : Bool) (e2t : Nat)
        (rest2 : List Event),
      e2t < max now tm + delay →
        (run delay closes allOk now n
            (⟨VRState.NotRunning, false, tm⟩ :: ⟨VRState.Running pid, b, e2t⟩ :: rest2)).1 =
          (run delay closes allOk (max (max now tm) e2t) n rest2).1) ∧
    (∀ (delay : Nat) (t : Nat) (next : Option Event),
      (debounceActions delay t next).count Action.TurnOff ≤ 1) := by
  refine ⟨?_, ?_, ?_, ?_, ?_⟩
  · intro delay closes now n tm
    simp [run_debounce_empty, allOk]
  · intro delay closes now n tm b e2t rest2 h
    rw [run_debounce_absent delay closes allOk now n tm b e2t rest2 h]
    simp [allOk]
  · intro delay closes now n tm e2 rest2 h
    rw [run_debounce_late delay closes allOk now n tm e2 rest2 h]
    simp [allOk]
  · intro delay closes now n tm pid b e2t rest2 h
    rw [run_debounce_present delay closes allOk now n tm pid b e2t rest2 h]
  · intro delay t next
    cases next with
    | none => simp [debounceActions, debounceOutcome]
    | some e =>
        by_cases h : e.time < t + delay
        · cases hs : e.state <;> simp [debounceActions, debounceOutcome, h, hs]
        · simp [debounceActions, debounceOutcome, h]

/-- Claim C2, witness at a concrete input: a wait that receives Absent
2 seconds into a 5 second delay issues exactly the one TurnOff. -/
theorem debounce_wait_exactly_one_branch_witness :
    (run 5 false allOk 0 0
        [⟨VRState.NotRunning, false, 0⟩, ⟨VRState.NotRunning, false, 2⟩]).1 =
      Action.TurnOff :: (run 5 false allOk (max (max 0 0) 2) (0 + 1) []).1 :=
  debounce_wait_exactly_one_branch.2.1 5 false 0 0 0 false 2 [] (by decide)

/-- Claim C3: a Present event sent before the debounce deadline skips
the pending shutdown, so the window contributes zero TurnOff calls (the
TurnOff count of the whole run equals that of the run on the remaining
events), and the scenario Present(initial) at 0, Absent at 10, Present
at 12 with delay 5 produces exactly the action sequence TurnOn. -/
theorem debounce_restart_skips_turnoff :
    (∀ (delay : Nat) (closes : Bool) (devOk : Nat → Bool) (now n tm pid : Nat)
        (b : Bool) (e2t : Nat) (rest : List Event),
      e2t < max now tm + delay →
        (run delay closes devOk now n
            (⟨VRState.NotRunning, false, tm⟩ :: ⟨VRState.Running pid, b, e2t⟩ :: rest)).1.count
            Action.TurnOff =
          (run delay closes devOk (max (max now tm) e2t) n rest).1.count Action.TurnOff) ∧
    run 5 false allOk 0 0
        [⟨VRState.Running 42, true, 0⟩, ⟨VRState.NotRunning, false, 10⟩,
          ⟨VRState.Running 42, false, 12⟩] =
      ([Action.TurnOn], Exit.blocked) := by
  refine ⟨?_, by decide⟩
  intro delay closes devOk now n tm pid b e2t rest h
  rw [run_debounce_present delay closes devOk now n tm pid b e2t rest h]

/-- Claim C3, witness at a concrete input. -/
theorem debounce_restart_skips_turnoff_witness :
    (run 5 false allOk 0 0
        [⟨VRState.NotRunning, false, 0⟩, ⟨VRState.Running 9, false, 2⟩]).1.count
        Action.TurnOff =
      (run 5 false allOk (max (max 0 0) 2) 0 []).1.count Action.TurnOff :=
  debounce_restart_skips_turnoff.1 5 false allOk 0 0 0 9 false 2 [] (by decide)

/-- Claim C4: over any sequence of process-table snapshots the watcher
emits exactly the initial event followed by one non-initial event per
state transition of the computed state sequence, in sample order —
nothing for an unchanged state, nothing dropped. -/
theorem watcher_one_event_per_transition (nm : String) (s0 : List Proc)
    (ss : List (List Proc)) :
    watcherEvents nm s0 ss =
      (get_initial_state nm s0, true) ::
        (changeList (get_initial_state nm s0)
            (stateList nm (get_initial_state nm s0) ss)).map (fun v => (v, false)) := by
  unfold watcherEvents
  rw [watcherLoop_eq_changeList nm ss (get_initial_state nm s0)]

/-- Claim C5: the first event the watcher emits is the initial-flagged
state computed from the first snapshot, unconditionally — in particular a
NotRunning first snapshot still yields an event — and the initial flag is
true in exactly one event of the stream, every loop event carrying
false. -/
theorem watcher_initial_flag_once (nm : String) (s0 : List Proc)
    (ss : List (List Proc)) :
    (watcherEvents nm s0 ss).head? = some (get_initial_state nm s0, true) ∧
    (watcherEvents nm s0 ss).countP (fun ev => ev.2) = 1 ∧
    (watcherEvents nm [] ss).head? = some (VRState.NotRunning, true) := by
  refine ⟨rfl, ?_, rfl⟩
  unfold watcherEvents
  simp [List.countP_cons, watcherLoop_countP_isInitial nm ss]

/-- Claim C6, counterexample. The claim reads: after the initial
emission, every poll cycle first sleeps the configured interval and then
re-polls. On the code the loop body refreshes first and sleeps last, so
the operation right after the initial send (index 2 of the trace) is a
refresh, not the sleep the claim requires there: with interval 3 and one
loop snapshot the trace is refresh, send, refresh, sleep. -/
theorem watcher_trace_poll_before_sleep :
    watcherTrace "vrserver.exe" 3 [] [[]] =
      [WOp.refresh, WOp.send (VRState.NotRunning, true), WOp.refresh, WOp.sleep 3] ∧
    ¬ (watcherTrace "vrserver.exe" 3 [] [[]]).get? 2 = some (WOp.sleep 3) := by
  decide

/-- Claim C6, amended: after the initial emission every poll cycle first
re-polls and then sleeps pollIntervalSeconds (the sleep ends the cycle,
so the first re-poll follows the initial emission immediately), and the
new state is computed asymmetrically: from Running(pid) the step only
checks whether that pid still exists — it is independent of the process
name, so no name scan occurs — and from NotRunning it performs the same
by-name search as the initial lookup. -/
theorem watcher_cycle_shape_and_lookup :
    (∀ (nm : String) (interval : Nat) (st : VRState) (s : List Proc)
        (ss : List (List Proc)),
      watcherLoopTrace nm interval st (s :: ss) =
        WOp.refresh ::
          ((if step_state nm s st = st then [] else [WOp.send (step_state nm s st, false)]) ++
            WOp.sleep interval :: watcherLoopTrace nm interval (step_state nm s st) ss)) ∧
    (∀ (nm nm2 : String) (s : List Proc) (pid : Nat),
      step_state nm s (VRState.Running pid) = step_state nm2 s (VRState.Running pid)) ∧
    (∀ (nm : String) (s : List Proc) (pid : Nat),
      step_state nm s (VRState.Running pid) =
        if (get_process s pid).isSome then VRState.Running pid else VRState.NotRunning) ∧
    (∀ (nm : String) (s : List Proc),
      step_state nm s VRState.NotRunning = get_initial_state nm s) := by
  refine ⟨?_, ?_, ?_, ?_⟩
  · intro nm interval st s ss
    rfl
  · intro nm nm2 s pid
    rfl
  · intro nm s pid
    rfl
  · intro nm s
    cases h : get_process_by_name s nm <;> simp [step_state, get_initial_state, h]

/-- Claim C7: an initial Absent event issues TurnOff immediately — the
continuation runs at the same clock, with no delay added and no event
consumed — and any Running event received at the top of the loop issues
TurnOn whether initial or not; so the first action is TurnOn when the
initial state is present with pid 42 and an undelayed TurnOff when it is
absent. -/
theorem startup_and_presence_actions :
    (∀ (delay : Nat) (closes : Bool) (now n tm : Nat) (rest : List Event),
      run delay closes allOk now n (⟨VRState.NotRunning, true, tm⟩ :: rest) =
        (Action.TurnOff :: (run delay closes allOk (max now tm) (n + 1) rest).1,
          (run delay closes allOk (max now tm) (n + 1) rest).2)) ∧
    (∀ (delay : Nat) (closes : Bool) (now n pid : Nat) (b : Bool) (tm : Nat)
        (rest : List Event),
      run delay closes allOk now n (⟨VRState.Running pid, b, tm⟩ :: rest) =
        (Action.TurnOn :: (run delay closes allOk (max now tm) (n + 1) rest).1,
          (run delay closes allOk (max now tm) (n + 1) rest).2)) ∧
    (run 5 false allOk 0 0 [⟨VRState.Running 42, true, 0⟩]).1 = [Action.TurnOn] ∧
    (run 5 false allOk 0 0 [⟨VRState.NotRunning, true, 0⟩]).1 = [Action.TurnOff] := by
  refine ⟨?_, ?_, by decide, by decide⟩
  · intro delay closes now n tm rest
    simp [run_absent_initial, allOk]
  · intro delay closes now n pid b tm rest
    simp [run_running, allOk]

/-- Claim C8: when the n-th device command fails, every branch of the
decision loop that issues a command at index n attempts exactly that one
command and then the program dies on the expect: the run ends panicked
with the failed attempt as its last recorded command, no retry and no
continuation, for the Running branch, the initial-Absent branch, and all
three TurnOff arms of the debounce wait. -/
theorem failed_command_halts (delay : Nat) (closes : Bool) (devOk : Nat → Bool)
    (now n : Nat) (hfail : devOk n = false) :
    (∀ (pid : Nat) (b : Bool) (tm : Nat) (rest : List Event),
      run delay closes devOk now n (⟨VRState.Running pid, b, tm⟩ :: rest) =
        ([Action.TurnOn], Exit.panicked)) ∧
    (∀ (tm : Nat) (rest : List Event),
      run delay closes devOk now n (⟨VRState.NotRunning, true, tm⟩ :: rest) =
        ([Action.TurnOff], Exit.panicked)) ∧
    (∀ (tm : Nat),
      run delay closes devOk now n [⟨VRState.NotRunning, false, tm⟩] =
        ([Action.TurnOff], Exit.panicked)) ∧
    (∀ (tm : Nat) (b : Bool) (e2t : Nat) (rest2 : List Event),
      e2t < max now tm + delay →
        run delay closes devOk now n
            (⟨VRState.NotRunning, false, tm⟩ :: ⟨VRState.NotRunning, b, e2t⟩ :: rest2) =
          ([Action.TurnOff], Exit.panicked)) ∧
    (∀ (tm : Nat) (e2 : Event) (rest2 : List Event),
      ¬ e2.time < max now tm + delay →
        run delay closes devOk now n (⟨VRState.NotRunning, false, tm⟩ :: e2 :: rest2) =
          ([Action.TurnOff], Exit.panicked)) := by
  refine ⟨?_, ?_, ?_, ?_, ?_⟩
  · intro pid b tm rest
    simp [run_running, hfail]
  · intro tm rest
    simp [run_absent_initial, hfail]
  · intro tm
    simp [run_debounce_empty, hfail]
  · intro tm b e2t rest2 h
    rw [run_debounce_absent delay closes devOk now n tm b e2t rest2 h]
    simp [hfail]
  · intro tm e2 rest2 h
    rw [run_debounce_late delay closes devOk now n tm e2 rest2 h]
    simp [hfail]

/-- Claim C8, witness: under a device oracle that fails every command,
the initial Running event and a debounce wait that receives Absent both
end the run at the single failed attempt. -/
theorem failed_command_halts_witness :
    run 5 false (fun _ => false) 0 0 [⟨VRState.Running 42, true, 0⟩] =
      ([Action.TurnOn], Exit.panicked) ∧
    run 5 false (fun _ => false) 0 0
        [⟨VRState.NotRunning, false, 0⟩, ⟨VRState.NotRunning, false, 2⟩] =
      ([Action.TurnOff], Exit.panicked) :=
  ⟨(failed_command_halts 5 false (fun _ => false) 0 0 rfl).1 42 true 0 [],
    (failed_command_halts 5 false (fun _ => false) 0 0 rfl).2.2.2.1 0 false 2 []
      (by decide)⟩

/-- Claim C9, counterexample. The claim reads: every configuration that
reaches the watcher has a poll interval of at least 1. load_config
applies no range validation, so a well-typed configuration file with
interval 0 is returned as-is by the load path of main and its interval
reaches the watcher, whose loop then sleeps 0 seconds each cycle. -/
theorem interval_zero_reaches_watcher :
    (configForMain (some zeroIntervalConfig) "u" "k" "e").check.interval = 0 ∧
    ¬ 1 ≤ (configForMain (some zeroIntervalConfig) "u" "k" "e").check.interval ∧
    WOp.sleep 0 ∈
      watcherTrace zeroIntervalConfig.check.process_name
        zeroIntervalConfig.check.interval [] [[]] := by
  decide

/-- Claim C9, amended: only the setup-prompt path guarantees a positive
poll interval (it always produces 3); the file-load path hands the
parsed configuration to the rest of the program unchanged, with no
interval validation, so an interval of 0 is not excluded. -/
theorem prompt_interval_positive_load_unvalidated :
    (∀ (url api_key entity : String),
      1 ≤ (prompt_config url api_key entity).check.interval) ∧
    (∀ (c : Config), configForMain (some c) "" "" "" = c) := by
  refine ⟨?_, ?_⟩
  · intro url api_key entity
    simp [prompt_config]
  · intro c
    rfl

/-- Claim C10: the channel closing plays no part in which commands a run
attempts — the action lists with and without disconnection coincide for
every event list — and when the watcher is already dead as the loop
enters a debounce wait with nothing queued, the recv_timeout Err is
handled exactly like a timeout, one TurnOff fires, and the run then
panics at the following blocking recv on the closed channel, as the run
on the exhausted stream shows. -/
theorem disconnect_during_debounce :
    (∀ (delay : Nat) (devOk : Nat → Bool) (now n : Nat) (evs : List Event),
      (run delay true devOk now n evs).1 = (run delay false devOk now n evs).1) ∧
    (∀ (delay now n tm : Nat),
      run delay true allOk now n [⟨VRState.NotRunning, false, tm⟩] =
        ([Action.TurnOff], Exit.panicked)) ∧
    (∀ (delay : Nat) (devOk : Nat → Bool) (now n : Nat),
      run delay true devOk now n [] = ([], Exit.panicked)) := by
  refine ⟨?_, ?_, ?_⟩
  · intro delay devOk now n evs
    exact run_fst_closes evs delay devOk now n
  · intro delay now n tm
    simp [run_debounce_empty, allOk]
  · intro delay devOk now n
    simp [run_nil]

end VRHass
